import Mathlib

/-!
Verification of the Curve3D program (src/Curve3D/Curve3D.cpp) against its
specification. The C++ doubles are idealised as real numbers; the program's
classes Circle, Ellipse and Helix become a tagged union, virtual dispatch
becomes pattern matching, and a throwing constructor becomes a function into
`Except`.
-/

/-- The constant `PI` of Curve3D.cpp line 10. The source writes the double
literal 3.14159265358979323846, which is the closest double to π; in the
real-number idealisation it is the exact constant. -/
noncomputable def PI : ℝ := Real.pi

/-- The struct `Point3D` (lines 12-17): an immutable triple of doubles. -/
structure Point3D where
  x : ℝ
  y : ℝ
  z : ℝ

/-- The closed set of concrete curve classes deriving from the abstract class
`Curve3D` (lines 19-89), as a tagged union: `Circle {radius}` (line 27),
`Ellipse {radiusX, radiusY}` (line 49), `Helix {radius, step}` (line 70). -/
inductive Curve3D where
  | circle (radius : ℝ)
  | ellipse (radiusX radiusY : ℝ)
  | helix (radius step : ℝ)

/-- The exceptions the program can throw: `std::invalid_argument` from the
curve constructors (lines 31, 54, 75) and `std::runtime_error` from the
factory's default branch (line 101), each carrying its message. -/
inductive CppException where
  | invalidArgument (msg : String)
  | runtimeError (msg : String)

/-- The message an exception carries, as `e.what()` reads it in the catch
block of main (line 151). -/
def CppException.what : CppException → String
  | .invalidArgument m => m
  | .runtimeError m => m

/-- The constructor `Circle::Circle(double r)` (lines 30-32): stores the
radius, then throws `std::invalid_argument("Radius must be positive")` when
`radius <= 0`. -/
noncomputable def Circle.construct (r : ℝ) : Except CppException Curve3D :=
  if r ≤ 0 then .error (.invalidArgument "Radius must be positive")
  else .ok (.circle r)

/-- The constructor `Ellipse::Ellipse(double rx, double ry)` (lines 52-55):
throws `std::invalid_argument("Radii must be positive")` when
`radiusX <= 0 || radiusY <= 0`. -/
noncomputable def Ellipse.construct (rx ry : ℝ) : Except CppException Curve3D :=
  if rx ≤ 0 ∨ ry ≤ 0 then .error (.invalidArgument "Radii must be positive")
  else .ok (.ellipse rx ry)

/-- The constructor `Helix::Helix(double r, double s)` (lines 73-76): throws
`std::invalid_argument("Radius and step must be positive")` when
`radius <= 0 || step <= 0`. -/
noncomputable def Helix.construct (r s : ℝ) : Except CppException Curve3D :=
  if r ≤ 0 ∨ s ≤ 0 then .error (.invalidArgument "Radius and step must be positive")
  else .ok (.helix r s)

/-- The virtual `getPoint(double t)` of the three classes (lines 34-36,
57-59, 78-80). Each body is a single return of a brace-initialised Point3D
and contains no throw; the function is total. -/
noncomputable def getPoint : Curve3D → ℝ → Point3D
  | .circle radius, t => ⟨radius * Real.cos t, radius * Real.sin t, 0⟩
  | .ellipse radiusX radiusY, t => ⟨radiusX * Real.cos t, radiusY * Real.sin t, 0⟩
  | .helix radius step, t => ⟨radius * Real.cos t, radius * Real.sin t, step * t / (2 * PI)⟩

/-- The virtual `getDerivative(double t)` of the three classes (lines 38-40,
61-63, 82-84); also total. -/
noncomputable def getDerivative : Curve3D → ℝ → Point3D
  | .circle radius, t => ⟨-radius * Real.sin t, radius * Real.cos t, 0⟩
  | .ellipse radiusX radiusY, t => ⟨-radiusX * Real.sin t, radiusY * Real.cos t, 0⟩
  | .helix radius step, t => ⟨-radius * Real.sin t, radius * Real.cos t, step / (2 * PI)⟩

/-- `Circle::getRadius()` (line 46), read by the pipeline on the elements of
the circles-only container. The other variants carry no such accessor and
never reach this function (the container is built by the dynamic_cast filter,
proved below to keep circles only); on them the model returns 0. -/
def getRadius : Curve3D → ℝ
  | .circle radius => radius
  | .ellipse _ _ => 0
  | .helix _ _ => 0

/-- The runtime-variant test `dynamic_cast<Circle*>(curve.get())` of the
filter loop in main (line 125): true exactly on the Circle variant. -/
def isCircle : Curve3D → Bool
  | .circle _ => true
  | .ellipse _ _ => false
  | .helix _ _ => false

/-- The filter loop of main (lines 123-128): walk the curves container in
order and push_back into `circles` every element whose dynamic type is
Circle. -/
def filterCircles (curves : List Curve3D) : List Curve3D :=
  curves.foldl (fun cs c => if isCircle c then cs ++ [c] else cs) []

/-- The comparator passed to `std::sort` in main (lines 131-134):
`a->getRadius() < b->getRadius()`. -/
def radiusLt (a b : Curve3D) : Prop := getRadius a < getRadius b

/-- Postcondition of the `std::sort` call in main (line 131), per the C++
standard's [alg.sort]: the output range holds a permutation of the input,
sorted with respect to the comparator, meaning that for no adjacent pair does
the later element compare before the earlier one. `std::sort` guarantees
nothing beyond this; in particular it does not promise to keep the relative
order of elements the comparator deems equivalent. -/
def IsStdSortResult {α : Type} (lt : α → α → Prop) (input output : List α) : Prop :=
  output.Perm input ∧ List.Chain' (fun a b => ¬ lt b a) output

/-- A `Circle` object as the circles container of main (line 123) holds it:
a `shared_ptr<Circle>` refers to a distinct heap object (its identity, here
`addr`) carrying the field `radius`. Two distinct objects may carry the same
radius. -/
structure CircleObj where
  addr : ℕ
  radius : ℝ

/-- The comparator of main's `std::sort` (lines 131-134) as it acts on the
circle objects of the container: it reads only the radius field, so objects
with equal radius are equivalent under it regardless of identity. -/
def CircleObj.radiusLt (a b : CircleObj) : Prop := a.radius < b.radius

/-- The `std::accumulate` call of main (lines 137-140): left fold over the
sorted circles container starting from 0.0, adding each circle's
`getRadius()`. -/
noncomputable def totalRadius (circles : List Curve3D) : ℝ :=
  circles.foldl (fun sum c => sum + getRadius c) 0

/-- The reference input collection of the specification's end-to-end test:
[Circle(3), Ellipse(2,4), Circle(1), Helix(5,2), Circle(2)]. -/
noncomputable def exampleCurves : List Curve3D :=
  [.circle 3, .ellipse 2 4, .circle 1, .helix 5 2, .circle 2]

/-- The factory `createRandomCurve` (lines 91-103). Its randomness is made
explicit: `ty` is the value drawn from `type_dist`, a
`uniform_int_distribution<>(0, 2)`, and `p1`, `p2` are the values drawn from
`param_dist`, a `uniform_real_distribution<>(0.1, 10.0)` (the Circle branch
draws one parameter, the other branches two). The switch builds the variant
the draw selects; its default branch throws
`std::runtime_error("Invalid curve type")`. -/
noncomputable def createRandomCurve (ty : ℕ) (p1 p2 : ℝ) : Except CppException Curve3D :=
  match ty with
  | 0 => Circle.construct p1
  | 1 => Ellipse.construct p1 p2
  | 2 => Helix.construct p1 p2
  | _ => .error (.runtimeError "Invalid curve type")

/-- The curve-building loop of main (lines 108-111): call the factory once
per iteration, collecting the curves in order; the first exception escapes
the loop (later draws never happen). Each list entry supplies the random
draws of one factory call. -/
noncomputable def buildCurves : List (ℕ × ℝ × ℝ) → Except CppException (List Curve3D)
  | [] => .ok []
  | d :: ds =>
    match createRandomCurve d.1 d.2.1 d.2.2 with
    | .error e => .error e
    | .ok c =>
      match buildCurves ds with
      | .error e => .error e
      | .ok cs => .ok (c :: cs)

/-- What a run of main (lines 105-156) leaves behind: the process exit code,
the message written to std::cerr by the catch block (line 151) if any, and
the circles container whose radii and total the success path reports (the
radii printed at lines 142-145 are a std::sort-permitted ordering of this
container, the total its accumulated sum). -/
structure RunOutcome where
  exitCode : ℕ
  stderrMsg : Option String
  circlesReport : Option (List Curve3D)

/-- main (lines 105-156): build the curves inside the try block; on success
run the reporting pipeline on the filtered circles and return 0; when any
construction throws, the catch block writes "Error: " followed by the
exception's message to std::cerr, no radii or total are printed, and main
returns 1. -/
noncomputable def mainRun (draws : List (ℕ × ℝ × ℝ)) : RunOutcome :=
  match buildCurves draws with
  | .ok curves => ⟨0, none, some (filterCircles curves)⟩
  | .error e => ⟨1, some ("Error: " ++ e.what), none⟩

/-- The formatting state of std::cout that `operator<<(double)` consults:
whether `std::fixed` is set and the stream precision. C++ streams start with
`defaultfloat` and precision 6; main changes the state only at line 146
(`std::fixed << std::setprecision(2)`), after every `printInfo` call and
after the sorted radii are printed. -/
structure StreamState where
  isFixed : Bool
  precision : ℕ

/-- The stream state in effect at every `printInfo` call in main (line 117):
the C++ defaults, `defaultfloat` with precision 6. -/
def defaultStream : StreamState := ⟨false, 6⟩

/-- The stream state after line 146 of main: `std::fixed` with precision 2,
in effect only for the total printed at line 147. -/
def fixedTwoStream : StreamState := ⟨true, 2⟩

/-- `operator<<(std::ostream, double)` restricted to integral values below
10^6, the only values the formatting claims evaluate (a double represents
them exactly). Under `defaultfloat` with precision at least the digit count,
such a value prints as its bare decimal digits, no decimal point and no
trailing zeros; under `std::fixed` with precision p it prints the digits,
then a decimal point and p zeros (no point when p = 0). -/
def putDouble (st : StreamState) (n : ℕ) : String :=
  if st.isFixed then
    if st.precision = 0 then Nat.repr n
    else Nat.repr n ++ "." ++ String.mk (List.replicate st.precision '0')
  else Nat.repr n

/-- `Circle::printInfo` (lines 42-44): writes "Circle (r=", the radius via
`operator<<` in the stream's current state, and ")". -/
def Circle.printInfo (st : StreamState) (radius : ℕ) : String :=
  "Circle (r=" ++ putDouble st radius ++ ")"

/-- `Ellipse::printInfo` (lines 65-67). -/
def Ellipse.printInfo (st : StreamState) (radiusX radiusY : ℕ) : String :=
  "Ellipse (rx=" ++ putDouble st radiusX ++ ", ry=" ++ putDouble st radiusY ++ ")"

/-- `Helix::printInfo` (lines 86-88). -/
def Helix.printInfo (st : StreamState) (radius step : ℕ) : String :=
  "Helix (r=" ++ putDouble st radius ++ ", step=" ++ putDouble st step ++ ")"

/-! ## Helper lemmas -/

/-- A push_back accumulation loop over a list is the accumulator followed by
the list's filter. -/
theorem foldl_push_eq_filter (p : Curve3D → Bool) :
    ∀ (l acc : List Curve3D),
      l.foldl (fun cs c => if p c then cs ++ [c] else cs) acc = acc ++ l.filter p := by
  intro l
  induction l with
  | nil => intro acc; simp
  | cons c cs ih =>
    intro acc
    cases hpc : p c <;> simp [List.filter_cons, hpc, ih]

/-! ## Claims -/

/-- C1: for every validly constructed curve and every real parameter t,
getPoint and getDerivative equal the closed-form parametrizations of the
specification's table: Circle(r) gives (r cos t, r sin t, 0) and
(-r sin t, r cos t, 0); Ellipse(rx, ry) gives (rx cos t, ry sin t, 0) and
(-rx sin t, ry cos t, 0); Helix(r, step) gives (r cos t, r sin t, step t/2π)
and (-r sin t, r cos t, step/2π). -/
theorem getPoint_getDerivative_closed_forms :
    (∀ (r : ℝ) (c : Curve3D), Circle.construct r = .ok c → ∀ t : ℝ,
        getPoint c t = ⟨r * Real.cos t, r * Real.sin t, 0⟩
      ∧ getDerivative c t = ⟨-r * Real.sin t, r * Real.cos t, 0⟩)
  ∧ (∀ (rx ry : ℝ) (c : Curve3D), Ellipse.construct rx ry = .ok c → ∀ t : ℝ,
        getPoint c t = ⟨rx * Real.cos t, ry * Real.sin t, 0⟩
      ∧ getDerivative c t = ⟨-rx * Real.sin t, ry * Real.cos t, 0⟩)
  ∧ (∀ (r s : ℝ) (c : Curve3D), Helix.construct r s = .ok c → ∀ t : ℝ,
        getPoint c t = ⟨r * Real.cos t, r * Real.sin t, s * t / (2 * PI)⟩
      ∧ getDerivative c t = ⟨-r * Real.sin t, r * Real.cos t, s / (2 * PI)⟩) := by
  refine ⟨fun r c h t => ?_, fun rx ry c h t => ?_, fun r s c h t => ?_⟩
  · simp only [Circle.construct] at h
    split_ifs at h
    injection h with h
    subst h
    exact ⟨rfl, rfl⟩
  · simp only [Ellipse.construct] at h
    split_ifs at h
    injection h with h
    subst h
    exact ⟨rfl, rfl⟩
  · simp only [Helix.construct] at h
    split_ifs at h
    injection h with h
    subst h
    exact ⟨rfl, rfl⟩

/-- C2: each constructor fails with the invalid_argument error exactly when
a scalar parameter is non-positive, and succeeds (yielding the curve) exactly
when all its parameters are positive, so the check happens at construction
time; evaluation of a constructed curve is total: getPoint and getDerivative
return a point for every t and can raise no error. -/
theorem construct_invalid_argument_iff :
    (∀ r : ℝ,
        (Circle.construct r = .ok (.circle r) ↔ 0 < r)
      ∧ (Circle.construct r = .error (.invalidArgument "Radius must be positive") ↔ r ≤ 0))
  ∧ (∀ rx ry : ℝ,
        (Ellipse.construct rx ry = .ok (.ellipse rx ry) ↔ 0 < rx ∧ 0 < ry)
      ∧ (Ellipse.construct rx ry = .error (.invalidArgument "Radii must be positive")
          ↔ rx ≤ 0 ∨ ry ≤ 0))
  ∧ (∀ r s : ℝ,
        (Helix.construct r s = .ok (.helix r s) ↔ 0 < r ∧ 0 < s)
      ∧ (Helix.construct r s = .error (.invalidArgument "Radius and step must be positive")
          ↔ r ≤ 0 ∨ s ≤ 0))
  ∧ (∀ (c : Curve3D) (t : ℝ), ∃ p d : Point3D, getPoint c t = p ∧ getDerivative c t = d) := by
  refine ⟨fun r => ?_, fun rx ry => ?_, fun r s => ?_, fun c t => ⟨_, _, rfl, rfl⟩⟩
  · simp only [Circle.construct]
    split_ifs with hc
    · exact ⟨iff_of_false (by simp) (not_lt.mpr hc), iff_of_true rfl hc⟩
    · exact ⟨iff_of_true rfl (not_le.mp hc), iff_of_false (by simp) hc⟩
  · simp only [Ellipse.construct]
    split_ifs with hc
    · refine ⟨iff_of_false (by simp) ?_, iff_of_true rfl hc⟩
      rintro ⟨h1, h2⟩
      rcases hc with h | h
      · exact absurd h1 (not_lt.mpr h)
      · exact absurd h2 (not_lt.mpr h)
    · push_neg at hc
      exact ⟨iff_of_true rfl hc,
        iff_of_false (by simp) (by simp [not_le.mpr hc.1, not_le.mpr hc.2])⟩
  · simp only [Helix.construct]
    split_ifs with hc
    · refine ⟨iff_of_false (by simp) ?_, iff_of_true rfl hc⟩
      rintro ⟨h1, h2⟩
      rcases hc with h | h
      · exact absurd h1 (not_lt.mpr h)
      · exact absurd h2 (not_lt.mpr h)
    · push_neg at hc
      exact ⟨iff_of_true rfl hc,
        iff_of_false (by simp) (by simp [not_le.mpr hc.1, not_le.mpr hc.2])⟩

/-- C3: the circle filter of main is exactly a stable filter: it equals the
list filter by the Circle test, it is a sublist of the input (the original
relative order is preserved), and an element belongs to it exactly when it
belongs to the input and its runtime variant is Circle (no circle omitted,
nothing else included). -/
theorem filterCircles_stable_filter (l : List Curve3D) :
    filterCircles l = l.filter isCircle
  ∧ (filterCircles l).Sublist l
  ∧ (∀ c : Curve3D, c ∈ filterCircles l ↔ c ∈ l ∧ isCircle c = true) := by
  have he : filterCircles l = l.filter isCircle := by
    simpa [filterCircles] using foldl_push_eq_filter isCircle l []
  refine ⟨he, ?_, fun c => ?_⟩
  · rw [he]
    exact List.filter_sublist l
  · rw [he, List.mem_filter]

/-- C8: for every radius r > 0 and parameter t, the (x, y) components of
Circle(r)'s position at t have squared norm exactly r². -/
theorem circle_point_sq_norm (r t : ℝ) (h : 0 < r) :
    (getPoint (.circle r) t).x ^ 2 + (getPoint (.circle r) t).y ^ 2 = r ^ 2 := by
  simp only [getPoint]
  linear_combination (r ^ 2) * Real.sin_sq_add_cos_sq t

/-- C8 witness: the squared norm identity at the concrete input r = 1,
t = 0. -/
theorem circle_point_sq_norm_witness :
    (getPoint (.circle 1) 0).x ^ 2 + (getPoint (.circle 1) 0).y ^ 2 = 1 ^ 2 :=
  circle_point_sq_norm 1 0 one_pos

/-- C4 evidence: the std::sort contract does not keep the pre-sort relative
order of equal-radius circles. For the two distinct circle objects with equal
radius 2, both orders satisfy the contract (each is a sorted permutation of
the input), and the reversed order differs from the input order; so the
sorted-by-std::sort container is not guaranteed to retain the pre-sort
relative order that the specification requires of a stable sort. -/
theorem std_sort_contract_not_stable :
    IsStdSortResult CircleObj.radiusLt [⟨0, 2⟩, ⟨1, 2⟩] [⟨1, 2⟩, ⟨0, 2⟩]
  ∧ ([⟨1, 2⟩, ⟨0, 2⟩] : List CircleObj) ≠ [⟨0, 2⟩, ⟨1, 2⟩]
  ∧ IsStdSortResult CircleObj.radiusLt [⟨0, 2⟩, ⟨1, 2⟩] [⟨0, 2⟩, ⟨1, 2⟩] := by
  refine ⟨⟨List.Perm.swap (⟨0, 2⟩ : CircleObj) ⟨1, 2⟩ [], ?_⟩, ?_, List.Perm.refl _, ?_⟩
  · simp [List.chain'_cons, CircleObj.radiusLt]
  · intro h
    simp [CircleObj.mk.injEq] at h
  · simp [List.chain'_cons, CircleObj.radiusLt]

/-- C5: the reported total is the left-to-right sum of the radii of the
sorted circle subset, and on the reference collection
[Circle(3), Ellipse(2,4), Circle(1), Helix(5,2), Circle(2)] any
std::sort-permitted ordering of the filtered circles has radii [1, 2, 3] and
total 6. -/
theorem pipeline_example_radii_total (sorted : List Curve3D)
    (h : IsStdSortResult radiusLt (filterCircles exampleCurves) sorted) :
    sorted.map getRadius = [1, 2, 3]
  ∧ totalRadius sorted = 6
  ∧ (∀ cs : List Curve3D,
      totalRadius cs = (cs.map getRadius).foldl (fun a b => a + b) 0) := by
  obtain ⟨hperm, hchain⟩ := h
  have hfold : ∀ cs : List Curve3D,
      totalRadius cs = (cs.map getRadius).foldl (fun a b => a + b) 0 := by
    intro cs
    simp [totalRadius, List.foldl_map]
  have hfilter : filterCircles exampleCurves = [.circle 3, .circle 1, .circle 2] := by
    simp [filterCircles, exampleCurves, isCircle]
  rw [hfilter] at hperm
  have hmapperm : List.Perm (sorted.map getRadius) ([3, 1, 2] : List ℝ) := by
    simpa [getRadius] using hperm.map getRadius
  have hmapsorted : (sorted.map getRadius).Sorted (fun a b : ℝ => a ≤ b) := by
    rw [List.Sorted, ← List.chain'_iff_pairwise, List.chain'_map]
    refine hchain.imp ?_
    intro a b hab
    exact not_lt.mp hab
  have hmapeq : sorted.map getRadius = [1, 2, 3] := by
    have h123 : List.Perm ([3, 1, 2] : List ℝ) [1, 2, 3] := by
      have p1 : List.Perm ([3, 1, 2] : List ℝ) [1, 3, 2] := List.Perm.swap 1 3 [2]
      have p2 : List.Perm ([1, 3, 2] : List ℝ) [1, 2, 3] :=
        List.Perm.cons 1 (List.Perm.swap 2 3 [])
      exact p1.trans p2
    refine List.eq_of_perm_of_sorted (hmapperm.trans h123) hmapsorted ?_
    norm_num [List.Sorted, List.pairwise_cons]
  refine ⟨hmapeq, ?_, hfold⟩
  rw [hfold sorted, hmapeq]
  norm_num

/-- C5 witness: the ascending ordering [Circle(1), Circle(2), Circle(3)] is a
std::sort-permitted result for the reference collection's circles, and on it
the radii list is [1, 2, 3] and the total 6. -/
theorem pipeline_example_radii_total_witness :
    ([Curve3D.circle 1, Curve3D.circle 2, Curve3D.circle 3].map getRadius = [1, 2, 3])
  ∧ totalRadius [Curve3D.circle 1, Curve3D.circle 2, Curve3D.circle 3] = 6 := by
  have hs : IsStdSortResult radiusLt (filterCircles exampleCurves)
      [Curve3D.circle 1, Curve3D.circle 2, Curve3D.circle 3] := by
    constructor
    · have hfilter : filterCircles exampleCurves = [.circle 3, .circle 1, .circle 2] := by
        simp [filterCircles, exampleCurves, isCircle]
      rw [hfilter]
      have p1 : List.Perm [Curve3D.circle 3, Curve3D.circle 1, Curve3D.circle 2]
          [Curve3D.circle 1, Curve3D.circle 3, Curve3D.circle 2] :=
        List.Perm.swap (Curve3D.circle 1) (Curve3D.circle 3) [Curve3D.circle 2]
      have p2 : List.Perm [Curve3D.circle 1, Curve3D.circle 3, Curve3D.circle 2]
          [Curve3D.circle 1, Curve3D.circle 2, Curve3D.circle 3] :=
        List.Perm.cons (Curve3D.circle 1)
          (List.Perm.swap (Curve3D.circle 2) (Curve3D.circle 3) [])
      exact (p1.trans p2).symm
    · refine (List.chain'_cons).mpr ⟨?_, (List.chain'_cons).mpr ⟨?_, List.chain'_singleton _⟩⟩ <;>
        norm_num [radiusLt, getRadius]
  have h := pipeline_example_radii_total _ hs
  exact ⟨h.1, h.2.1⟩

/-- C6: whenever the variant draw is one of {0, 1, 2} and every parameter
draw lies in the distribution's range [0.1, 10], the parameters are strictly
positive and the factory constructs one of the three variants successfully:
construction cannot fail through this path. -/
theorem createRandomCurve_in_range_valid (ty : ℕ) (p1 p2 : ℝ) (hty : ty ≤ 2)
    (h1l : 0.1 ≤ p1) (h1r : p1 ≤ 10) (h2l : 0.1 ≤ p2) (h2r : p2 ≤ 10) :
    (0 < p1 ∧ 0 < p2)
  ∧ ∃ c : Curve3D, createRandomCurve ty p1 p2 = .ok c
      ∧ (c = .circle p1 ∨ c = .ellipse p1 p2 ∨ c = .helix p1 p2) := by
  have hp1 : 0 < p1 := lt_of_lt_of_le (by norm_num) h1l
  have hp2 : 0 < p2 := lt_of_lt_of_le (by norm_num) h2l
  refine ⟨⟨hp1, hp2⟩, ?_⟩
  interval_cases ty
  · exact ⟨.circle p1,
      by simp [createRandomCurve, Circle.construct, not_le.mpr hp1], Or.inl rfl⟩
  · exact ⟨.ellipse p1 p2,
      by simp [createRandomCurve, Ellipse.construct, not_le.mpr hp1, not_le.mpr hp2],
      Or.inr (Or.inl rfl)⟩
  · exact ⟨.helix p1 p2,
      by simp [createRandomCurve, Helix.construct, not_le.mpr hp1, not_le.mpr hp2],
      Or.inr (Or.inr rfl)⟩

/-- C6 witness: the factory call with variant draw 0 and parameter draws 1
(inside [0.1, 10]) constructs Circle(1). -/
theorem createRandomCurve_in_range_valid_witness :
    ((0:ℝ) < 1 ∧ (0:ℝ) < 1)
  ∧ ∃ c : Curve3D, createRandomCurve 0 1 1 = .ok c
      ∧ (c = .circle 1 ∨ c = .ellipse 1 1 ∨ c = .helix 1 1) :=
  createRandomCurve_in_range_valid 0 1 1 (by norm_num) (by norm_num) (by norm_num)
    (by norm_num) (by norm_num)

/-- C7: main exits with code 0 exactly when every curve construction
succeeds and with code 1 exactly when one fails; on failure the run aborts
with no radii/total report and the exception's message is written to the
error stream with the "Error: " prefix, and on success nothing is written to
the error stream and the report is produced. -/
theorem main_exit_codes (draws : List (ℕ × ℝ × ℝ)) :
    ((mainRun draws).exitCode = 0 ↔ ∃ cs, buildCurves draws = .ok cs)
  ∧ ((mainRun draws).exitCode = 1 ↔ ∃ e, buildCurves draws = .error e)
  ∧ (∀ e, buildCurves draws = .error e →
      (mainRun draws).stderrMsg = some ("Error: " ++ CppException.what e)
    ∧ (mainRun draws).circlesReport = none)
  ∧ (∀ cs, buildCurves draws = .ok cs →
      (mainRun draws).stderrMsg = none
    ∧ (mainRun draws).circlesReport = some (filterCircles cs)) := by
  cases hb : buildCurves draws with
  | ok cs => simp [mainRun, hb]
  | error e => simp [mainRun, hb]

/-- C7 witness: a run whose first construction throws (Circle with radius
-1) exits 1 with the message on the error stream and no report; a run whose
constructions all succeed exits 0 with a report and no error message. -/
theorem main_exit_codes_witness :
    mainRun [(0, -1, 1)] = ⟨1, some "Error: Radius must be positive", none⟩
  ∧ mainRun [(0, 1, 1)] = ⟨0, none, some [Curve3D.circle 1]⟩ := by
  have hneg : ((-1:ℝ) ≤ 0) := by norm_num
  have hpos : ¬((1:ℝ) ≤ 0) := by norm_num
  constructor
  · have hb : buildCurves [(0, -1, 1)]
        = .error (.invalidArgument "Radius must be positive") := by
      simp [buildCurves, createRandomCurve, Circle.construct, hneg]
    simp [mainRun, hb, CppException.what]
  · have hb : buildCurves [(0, 1, 1)] = .ok [Curve3D.circle 1] := by
      simp [buildCurves, createRandomCurve, Circle.construct, hpos]
    simp only [mainRun, hb]
    simp [filterCircles, isCircle]

/-- C9 counterexample: when Circle::printInfo runs in main the stream is
still in its default state (std::fixed and setprecision(2) are applied only
afterwards, for the total), so Circle(3) describes itself as "Circle (r=3)",
not "Circle (r=3.00)". -/
theorem printInfo_default_ne_two_decimals :
    Circle.printInfo defaultStream 3 ≠ "Circle (r=3.00)"
  ∧ Circle.printInfo defaultStream 3 = "Circle (r=3)" := by
  constructor
  · decide
  · decide

/-- C9 amended: printInfo returns a short label naming the variant and its
defining parameters, each rendered by the stream's current formatting state;
in the default state (the one in effect at main's printInfo calls) Circle(3)
renders as "Circle (r=3)", and the two-decimal rendering "Circle (r=3.00)"
would arise only under std::fixed with precision 2, the state main applies
only to the final total. -/
theorem printInfo_label_formats :
    (∀ (st : StreamState) (r : ℕ),
        Circle.printInfo st r = "Circle (r=" ++ putDouble st r ++ ")")
  ∧ (∀ (st : StreamState) (rx ry : ℕ),
        Ellipse.printInfo st rx ry
          = "Ellipse (rx=" ++ putDouble st rx ++ ", ry=" ++ putDouble st ry ++ ")")
  ∧ (∀ (st : StreamState) (r s : ℕ),
        Helix.printInfo st r s
          = "Helix (r=" ++ putDouble st r ++ ", step=" ++ putDouble st s ++ ")")
  ∧ Circle.printInfo defaultStream 3 = "Circle (r=3)"
  ∧ Circle.printInfo fixedTwoStream 3 = "Circle (r=3.00)" := by
  refine ⟨fun st r => rfl, fun st rx ry => rfl, fun st r s => rfl, by decide, by decide⟩

/-- C10: when the variant draw lies in {0, 1, 2} — all that
uniform_int_distribution(0, 2) can produce — the factory's switch takes one
of the three construction branches, so the default branch's
runtime_error("Invalid curve type") is unreachable. -/
theorem createRandomCurve_switch_no_default (ty : ℕ) (p1 p2 : ℝ) (hty : ty ≤ 2) :
    (createRandomCurve ty p1 p2 = Circle.construct p1
     ∨ createRandomCurve ty p1 p2 = Ellipse.construct p1 p2
     ∨ createRandomCurve ty p1 p2 = Helix.construct p1 p2)
  ∧ createRandomCurve ty p1 p2 ≠ .error (.runtimeError "Invalid curve type") := by
  interval_cases ty
  · refine ⟨Or.inl rfl, ?_⟩
    simp only [createRandomCurve, Circle.construct]
    split_ifs <;> simp
  · refine ⟨Or.inr (Or.inl rfl), ?_⟩
    simp only [createRandomCurve, Ellipse.construct]
    split_ifs <;> simp
  · refine ⟨Or.inr (Or.inr rfl), ?_⟩
    simp only [createRandomCurve, Helix.construct]
    split_ifs <;> simp

/-- C10 witness: at the concrete draw (1, 2, 3) the switch takes the Ellipse
branch and does not raise the default branch's error. -/
theorem createRandomCurve_switch_no_default_witness :
    (createRandomCurve 1 2 3 = Circle.construct 2
     ∨ createRandomCurve 1 2 3 = Ellipse.construct 2 3
     ∨ createRandomCurve 1 2 3 = Helix.construct 2 3)
  ∧ createRandomCurve 1 2 3 ≠ .error (.runtimeError "Invalid curve type") :=
  createRandomCurve_switch_no_default 1 2 3 (by norm_num)
